import Mathlib

/-!
# XMC7000 CAN FD example (`main.c`): shallow embedding

The program is one C file: `main` (start-up and the poll loop), the button
interrupt handler `isr_button` and the receive callback `canfd_rx_callback`.
Calls into the vendor library (GPIO, CAN FD driver, board support, `printf`)
are recorded, in program order, in a trace carried by the machine state; the
values such calls return are inputs of the model.

The local array of the receive callback has `CAN_DLC` bytes. An access outside
it has no defined behaviour in C: the model follows the program up to and
including the call that makes the access, reports `Result.outOfBounds` with the
state reached there, and says nothing about what the program does next.
-/

set_option linter.unusedVariables false

namespace CanfdExample

/-! ## Macros of `main.c` -/

def CAN_NODE_1 : Nat := 1
def CAN_NODE_2 : Nat := 2
def USE_CAN_NODE : Nat := CAN_NODE_1

def CAN_CLASSIC_MODE : Nat := 0
def CAN_FD_MODE : Nat := 1
def USE_CAN_MODE : Nat := CAN_FD_MODE

def CAN_HW_CHANNEL : Nat := 1
def CAN_BUFFER_INDEX : Nat := 0
def CAN_DLC : Nat := 8

/-! ## Constants of the vendor headers

The headers `cy_pdl.h`, `cycfg.h`, `cybsp.h` and `cy_retarget_io.h` belong to the
vendor library and the generated configuration; `main.c` only names their
constants. -/

/-- Modelled from the spec: the result "success" of the board and console set-up
calls, a constant of the vendor header; `main` only compares against it. -/
def CY_RSLT_SUCCESS : Nat := 0

/-- Modelled from the spec: the status "success" of the CAN FD driver calls, a
constant of the vendor header; `main` only compares against it. -/
def CY_CANFD_SUCCESS : Nat := 0

/-- Modelled from the spec: the frame-type value of a data frame, as opposed to
a remote-transmission-request frame; a constant of the vendor header. -/
def CY_CANFD_RTR_DATA_FRAME : Nat := 0

/-- Modelled from the spec: index of the first data word, a constant of the
generated configuration; the payload is 8 bytes, two words. -/
def CANFD_DATA_0 : Nat := 0

/-- Modelled from the spec: index of the second data word, a constant of the
generated configuration. -/
def CANFD_DATA_1 : Nat := 1

/-! ## Machine state and trace -/

/-- The two word arrays a transmit descriptor's `data_area_f` can point to: the
array of the generated configuration and the array `canfd_dataBuffer` of
`main.c`. -/
inductive DataArea where
  | CANFD_dataBuffer_0
  | canfd_dataBuffer
  deriving DecidableEq, Repr

/-- One action of the program, as seen from outside the C code that performs
it: a library call, the store to the shared flag, or one byte access of the
receive callback's copy and print loops. -/
inductive Event where
  | cybsp_init
  | cy_retarget_io_init
  | printf (text : String)
  | Cy_SysInt_Init_canfd
  | Cy_SysInt_Init_button
  | NVIC_EnableIRQ
  | enable_irq
  | Cy_CANFD_Init (channel : Nat)
  | storeButtonIntrFlag (value : Bool)
  | Cy_CANFD_UpdateAndTransmitMsgBuffer (channel index id : Nat) (area : DataArea)
      (words : List Nat)
  | Cy_GPIO_ClearInterrupt
  | Cy_GPIO_Inv
  | dataAreaRead (byteIndex : Nat)
  | bufferWrite (index value : Nat)
  | bufferRead (index : Nat)
  deriving DecidableEq, Repr

/-- The globals of `main.c` that the code reads or writes, the two pieces of
pin hardware it drives, and the trace of actions performed so far. -/
structure State where
  ButtonIntrFlag : Bool
  canfd_dataBuffer : List Nat
  CANFD_dataBuffer_0 : List Nat
  CANFD_T0RegisterBuffer_0_id : Nat
  CANFD_txBuffer_0_data_area_f : DataArea
  ledLevel : Bool
  buttonIntrMasked : Nat
  trace : List Event
  deriving DecidableEq, Repr

/-- Initialiser of `canfd_dataBuffer`: an array with designated initialisers
`[CANFD_DATA_0]` and `[CANFD_DATA_1]`, its length one more than the largest
designated index. -/
def canfd_dataBuffer_init : List Nat :=
  ((List.replicate (max CANFD_DATA_0 CANFD_DATA_1 + 1) 0).set CANFD_DATA_0 0x04030201).set
    CANFD_DATA_1 0x08070605

/-- State at reset. The generated configuration (identifier and data array of
the transmit descriptor) and the pin levels are inputs. -/
def boot (cfgId : Nat) (cfgData : List Nat) (led : Bool) : State where
  ButtonIntrFlag := false
  canfd_dataBuffer := canfd_dataBuffer_init
  CANFD_dataBuffer_0 := cfgData
  CANFD_T0RegisterBuffer_0_id := cfgId
  CANFD_txBuffer_0_data_area_f := DataArea.CANFD_dataBuffer_0
  ledLevel := led
  buttonIntrMasked := 0
  trace := []

/-- How far the model follows a piece of the program: to its end, up to an
access outside the local array `canfd_data_buffer` (the state is the one reached
at that access; C defines nothing beyond it), or until the fuel of the print
loop is used up. -/
inductive Result (α : Type) where
  | done (a : α)
  | outOfBounds (s : State)
  | outOfFuel
  deriving DecidableEq, Repr

/-- Append one event to the trace. -/
def State.emit (s : State) (e : Event) : State :=
  { s with trace := s.trace ++ [e] }

/-- Words a `data_area_f` pointer designates in the current state. -/
def State.deref (s : State) : DataArea → List Nat
  | DataArea.CANFD_dataBuffer_0 => s.CANFD_dataBuffer_0
  | DataArea.canfd_dataBuffer => s.canfd_dataBuffer

/-! ## Library calls

The functions called here are the vendor library's and the C library's. Each
call appends one event to the trace; what the call does to the pin hardware is
taken from the spec. -/

/-- The line of 63 equals signs that frames the banner `main` prints. -/
def rule : String := String.mk (List.replicate 63 '=')

/-- The call `printf` with the text its format and arguments produce. -/
def printf (text : String) (s : State) : State :=
  s.emit (Event.printf text)

/-- Conversion of `%d` for an `int` argument. -/
def fmtD (v : Int) : String := toString v

/-- Conversion of a 32-bit unsigned value to `int` (two's complement). -/
def toInt (v : Nat) : Int :=
  if v % 2 ^ 32 < 2 ^ 31 then ((v % 2 ^ 32 : Nat) : Int) else ((v % 2 ^ 32 : Nat) : Int) - 2 ^ 32

/-- Conversion of an `int` to the 32-bit `size_t`. -/
def toSizeT (v : Int) : Nat := (v % 2 ^ 32).toNat

/-- Modelled from the spec: the call `Cy_GPIO_Inv` on the LED pin "toggles the
LED output pin"; toggling twice returns to the original level. -/
def Cy_GPIO_Inv (s : State) : State :=
  { s with ledLevel := !s.ledLevel, trace := s.trace ++ [Event.Cy_GPIO_Inv] }

/-- Modelled from the spec: the call `Cy_GPIO_GetInterruptStatusMasked` reads
the masked interrupt status of the button pin. -/
def Cy_GPIO_GetInterruptStatusMasked (s : State) : Nat := s.buttonIntrMasked

/-- Modelled from the spec: the call `Cy_GPIO_ClearInterrupt` "clears the
pin-level interrupt condition" of the button pin. -/
def Cy_GPIO_ClearInterrupt (s : State) : State :=
  { s with buttonIntrMasked := 0, trace := s.trace ++ [Event.Cy_GPIO_ClearInterrupt] }

/-- Modelled from the spec: the call `Cy_CANFD_UpdateAndTransmitMsgBuffer` on
`CANFD_txBuffer_0` issues one transmit request with the descriptor. The request
is recorded with the identifier and the data words the descriptor designates at
the time of the call; `status` is what the driver answers. -/
def Cy_CANFD_UpdateAndTransmitMsgBuffer (status channel index : Nat) (s : State) :
    Nat × State :=
  (status,
    s.emit (Event.Cy_CANFD_UpdateAndTransmitMsgBuffer channel index
      s.CANFD_T0RegisterBuffer_0_id s.CANFD_txBuffer_0_data_area_f
      (s.deref s.CANFD_txBuffer_0_data_area_f)))

/-- Byte `i` of a word array in memory (little-endian core). -/
def loadByte (mem : Nat → Nat) (i : Nat) : Nat :=
  (mem (i / 4) >>> (8 * (i % 4))) &&& 0xFF

/-- A destination array during a `memcpy`: its bytes, whether every write so far
fell inside it, and the machine state. -/
structure Copy where
  dst : List Nat
  inBounds : Bool
  state : State

/-- The call `memcpy(dst, src, n)` with `src` a word array and `dst` an array of
`dst.length` bytes: the bytes at offsets `0 .. n-1` are copied in ascending
order, each read and each write recorded. A write at an offset inside `dst`
stores the byte there; a write at an offset outside `dst` is out of bounds and
clears `inBounds`. -/
def memcpy (src : Nat → Nat) : Nat → Copy → Copy
  | 0, acc => acc
  | n + 1, acc =>
    let r := memcpy src n acc
    { dst := r.dst.set n (loadByte src n),
      inBounds := r.inBounds && decide (n < r.dst.length),
      state := (r.state.emit (Event.dataAreaRead n)).emit
        (Event.bufferWrite n (loadByte src n)) }

/-! ## The receive callback -/

/-- Modelled from the spec: the fields of `cy_stc_canfd_r0_t` the callback
reads, identifier and frame type, 32-bit unsigned in the vendor header. -/
structure R0 where
  id : Nat
  rtr : Nat

/-- Modelled from the spec: the field of `cy_stc_canfd_r1_t` the callback reads,
the data-length code, 32-bit unsigned in the vendor header. -/
structure R1 where
  dlc : Nat

/-- Modelled from the spec: a received frame as the driver hands it over,
`cy_stc_canfd_rx_buffer_t`; `data_area_f` maps a word index to the 32-bit word
stored there. -/
structure RxBuffer where
  r0_f : R0
  r1_f : R1
  data_area_f : Nat → Nat

/-- The loop `for (uint8_t msg_idx = 0; msg_idx < canfd_dlc; msg_idx++)` from
the point where the counter is `msg_idx`. Reading `canfd_data_buffer[msg_idx]`
outside the array is out of bounds. -/
def printLoop (canfd_data_buffer : List Nat) (canfd_dlc : Int) :
    Nat → Nat → State → Result State
  | 0, _, _ => Result.outOfFuel
  | fuel + 1, msg_idx, s =>
    if (msg_idx : Int) < canfd_dlc then
      match canfd_data_buffer[msg_idx]? with
      | some value =>
        printLoop canfd_data_buffer canfd_dlc fuel ((msg_idx + 1) % 256)
          (printf (" " ++ fmtD value ++ " ") (s.emit (Event.bufferRead msg_idx)))
      | none => Result.outOfBounds (s.emit (Event.bufferRead msg_idx))
    else Result.done s

/-- The function `canfd_rx_callback`. The local array `canfd_data_buffer` has
`CAN_DLC` bytes, indeterminate on entry (zero here; the loop reads only what
`memcpy` wrote). When the copy writes outside the array the model stops there:
the result is `Result.outOfBounds` with the state reached by the copy. -/
def canfd_rx_callback (fuel : Nat) (rxFIFOMsg : Bool) (msgBufOrRxFIFONum : Nat)
    (basemsg : RxBuffer) (s : State) : Result State :=
  if rxFIFOMsg == true then
    if CY_CANFD_RTR_DATA_FRAME == basemsg.r0_f.rtr then
      let s1 := Cy_GPIO_Inv s
      let canfd_dlc : Int := toInt basemsg.r1_f.dlc
      let canfd_id : Int := toInt basemsg.r0_f.id
      let s2 := printf (fmtD canfd_dlc ++ " bytes received from Node-" ++ fmtD canfd_id
        ++ " with identifier " ++ fmtD canfd_id ++ "\r\n\r\n") s1
      let copied := memcpy basemsg.data_area_f (toSizeT canfd_dlc)
        ⟨List.replicate CAN_DLC 0, true, s2⟩
      if copied.inBounds then
        let s3 := printf "Rx Data : " copied.state
        match printLoop copied.dst canfd_dlc fuel 0 s3 with
        | Result.done s4 => Result.done (printf "\r\n\r\n" s4)
        | Result.outOfBounds s4 => Result.outOfBounds s4
        | Result.outOfFuel => Result.outOfFuel
      else Result.outOfBounds copied.state
    else Result.done s
  else Result.done s

/-! ## The button interrupt handler -/

/-- The function `isr_button`. -/
def isr_button (s : State) : State :=
  let intStatus := Cy_GPIO_GetInterruptStatusMasked s
  if intStatus != 0 then
    let s1 : State :=
      { s with ButtonIntrFlag := true, trace := s.trace ++ [Event.storeButtonIntrFlag true] }
    Cy_GPIO_ClearInterrupt s1
  else s

/-! ## The function `main` -/

/-- Results the three checked start-up calls return: `cybsp_init`,
`cy_retarget_io_init` and `Cy_CANFD_Init`. -/
structure Env where
  cybsp_init : Nat
  cy_retarget_io_init : Nat
  Cy_CANFD_Init : Nat
  deriving DecidableEq, Repr

/-- Where `main` stands: stopped for good, or still executing. -/
inductive Outcome where
  | halted (s : State)
  | running (s : State)
  deriving DecidableEq, Repr

/-- Modelled from the spec: `CY_ASSERT` is a macro of the vendor library, absent
from this repository. The spec says a failed start-up check "halts the processor
via a trap/breakpoint mechanism with no recovery, no retry", so `CY_ASSERT(x)`
with `x` zero stops execution at that point and passes otherwise. -/
def CY_ASSERT (x : Nat) (s : State) : Outcome :=
  if x == 0 then Outcome.halted s else Outcome.running s

/-- The body of `main` from its first statement up to the `for(;;)`:
`Outcome.running s` means the loop is reached in state `s`. -/
def main_startup (env : Env) (s0 : State) : Outcome :=
  let s1 := s0.emit Event.cybsp_init
  let result := env.cybsp_init
  match (if result != CY_RSLT_SUCCESS then CY_ASSERT 0 s1 else Outcome.running s1) with
  | Outcome.halted h => Outcome.halted h
  | Outcome.running s2 =>
    let s3 := s2.emit Event.cy_retarget_io_init
    let result := env.cy_retarget_io_init
    match (if result != CY_RSLT_SUCCESS then CY_ASSERT 0 s3 else Outcome.running s3) with
    | Outcome.halted h => Outcome.halted h
    | Outcome.running s4 =>
      let s5 := printf "\x1b[2J\x1b[;H" s4
      let s6 := printf (rule ++ "\r\n") s5
      let s7 := printf "XMC7000 MCU: CANFD example\r\n" s6
      let s8 := printf (rule ++ "\r\n\n") s7
      let s9 := printf (rule ++ "\r\n") s8
      let s10 :=
        if USE_CAN_MODE == CAN_CLASSIC_MODE then
          printf ("Classic CAN Node-" ++ fmtD USE_CAN_NODE ++ "\r\n") s9
        else if USE_CAN_MODE == CAN_FD_MODE then
          printf ("CAN FD Node-" ++ fmtD USE_CAN_NODE ++ "\r\n") s9
        else s9
      let s11 := printf (rule ++ "\r\n\n") s10
      let s12 := s11.emit Event.Cy_SysInt_Init_canfd
      let s13 := s12.emit Event.Cy_SysInt_Init_button
      let s14 := s13.emit Event.NVIC_EnableIRQ
      let s15 := s14.emit Event.enable_irq
      let s16 := s15.emit (Event.Cy_CANFD_Init CAN_HW_CHANNEL)
      let status := env.Cy_CANFD_Init
      match (if status != CY_CANFD_SUCCESS then CY_ASSERT 0 s16 else Outcome.running s16) with
      | Outcome.halted h => Outcome.halted h
      | Outcome.running s17 =>
        let s18 : State := { s17 with CANFD_T0RegisterBuffer_0_id := USE_CAN_NODE }
        let s19 : State := { s18 with CANFD_txBuffer_0_data_area_f := DataArea.canfd_dataBuffer }
        Outcome.running s19

/-- One iteration of the `for(;;)` of `main`; `txStatus` is the status the
driver returns if the iteration calls it. The status is stored in the local
`status`, which no later statement reads. -/
def pollIteration (txStatus : Nat) (s : State) : State :=
  if s.ButtonIntrFlag == true then
    let s1 : State :=
      { s with ButtonIntrFlag := false, trace := s.trace ++ [Event.storeButtonIntrFlag false] }
    let r := Cy_CANFD_UpdateAndTransmitMsgBuffer txStatus CAN_HW_CHANNEL CAN_BUFFER_INDEX s1
    let status := r.1
    if USE_CAN_MODE == CAN_CLASSIC_MODE then
      printf ("CAN standard frame sent from Node-" ++ fmtD USE_CAN_NODE ++ "\r\n\r\n") r.2
    else if USE_CAN_MODE == CAN_FD_MODE then
      printf ("CANFD frame sent from Node-" ++ fmtD USE_CAN_NODE ++ "\r\n\r\n") r.2
    else r.2
  else s

/-! ## The running system

After start-up the processor runs loop iterations of `main`, interleaved with
the two handlers; each handler runs to completion. -/

/-- What happens next: one loop iteration, the button interrupt (the pin
hardware latches the masked status `intStatus`, then `isr_button` runs), or the
driver handing a received frame to `canfd_rx_callback`. -/
inductive Stimulus where
  | poll (txStatus : Nat)
  | button (intStatus : Nat)
  | rx (rxFIFOMsg : Bool) (msgBufOrRxFIFONum : Nat) (basemsg : RxBuffer)

/-- One stimulus handled to completion. -/
def step (fuel : Nat) : Stimulus → State → Result State
  | Stimulus.poll txStatus, s => Result.done (pollIteration txStatus s)
  | Stimulus.button intStatus, s =>
    Result.done (isr_button { s with buttonIntrMasked := intStatus })
  | Stimulus.rx rxFIFOMsg num basemsg, s => canfd_rx_callback fuel rxFIFOMsg num basemsg s

/-- A schedule handled in order; it ends early at the first stimulus that is
not handled to completion. -/
def run (fuel : Nat) : List Stimulus → State → Result State
  | [], s => Result.done s
  | e :: rest, s =>
    match step fuel e s with
    | Result.done s1 => run fuel rest s1
    | Result.outOfBounds s1 => Result.outOfBounds s1
    | Result.outOfFuel => Result.outOfFuel

/-- The program from reset: start-up, then the schedule if the loop is
reached. A halted processor executes nothing further. -/
def system (env : Env) (fuel : Nat) (schedule : List Stimulus) (s0 : State) :
    Result Outcome :=
  match main_startup env s0 with
  | Outcome.halted h => Result.done (Outcome.halted h)
  | Outcome.running s =>
    match run fuel schedule s with
    | Result.done s1 => Result.done (Outcome.running s1)
    | Result.outOfBounds s1 => Result.outOfBounds s1
    | Result.outOfFuel => Result.outOfFuel

/-! ## Projections of a trace -/

/-- Texts of the `printf` calls, in order. -/
def printed (tr : List Event) : List String :=
  tr.filterMap fun e => match e with
    | Event.printf text => some text
    | _ => none

/-- Number of `Cy_GPIO_Inv` calls. -/
def ledInversions (tr : List Event) : Nat :=
  (tr.filter fun e => e == Event.Cy_GPIO_Inv).length

/-- Number of `Cy_GPIO_ClearInterrupt` calls. -/
def interruptClears (tr : List Event) : Nat :=
  (tr.filter fun e => e == Event.Cy_GPIO_ClearInterrupt).length

/-- Byte offsets of the frame's data area that were read, in order. -/
def dataAreaReads (tr : List Event) : List Nat :=
  tr.filterMap fun e => match e with
    | Event.dataAreaRead i => some i
    | _ => none

/-- Offsets of `canfd_data_buffer` that were written, in order. -/
def bufferWrites (tr : List Event) : List Nat :=
  tr.filterMap fun e => match e with
    | Event.bufferWrite i _ => some i
    | _ => none

/-- Offsets of `canfd_data_buffer` that were written with the byte stored at
each, in order. -/
def bufferStores (tr : List Event) : List (Nat × Nat) :=
  tr.filterMap fun e => match e with
    | Event.bufferWrite i v => some (i, v)
    | _ => none

/-- Offsets of `canfd_data_buffer` that were read, in order. -/
def bufferReads (tr : List Event) : List Nat :=
  tr.filterMap fun e => match e with
    | Event.bufferRead i => some i
    | _ => none

/-- The transmit requests, in order. -/
def transmits (tr : List Event) : List Event :=
  tr.filter fun e => match e with
    | Event.Cy_CANFD_UpdateAndTransmitMsgBuffer _ _ _ _ _ => true
    | _ => false

/-- State a running or halted `main` is in. -/
def Outcome.state : Outcome → State
  | Outcome.halted s => s
  | Outcome.running s => s

/-- Events of `memcpy` copying bytes `0 .. n-1` out of `src`. -/
def copyEvents (src : Nat → Nat) : Nat → List Event
  | 0 => []
  | n + 1 => copyEvents src n ++ [Event.dataAreaRead n, Event.bufferWrite n (loadByte src n)]

/-- Events of `count` rounds of the print loop starting at counter `start`,
with `buf` giving the byte at each offset of the local array. -/
def loopEvents (buf : Nat → Nat) : Nat → Nat → List Event
  | _, 0 => []
  | start, count + 1 =>
    Event.bufferRead start :: Event.printf (" " ++ fmtD (buf start) ++ " ") ::
      loopEvents buf (start + 1) count

/-- Events of `canfd_rx_callback` on a data frame out of the FIFO from its
first statement through the copy of `n` bytes. -/
def copyPhase (basemsg : RxBuffer) (n : Nat) : List Event :=
  [Event.Cy_GPIO_Inv,
    Event.printf (fmtD (toInt basemsg.r1_f.dlc) ++ " bytes received from Node-"
      ++ fmtD (toInt basemsg.r0_f.id) ++ " with identifier " ++ fmtD (toInt basemsg.r0_f.id)
      ++ "\r\n\r\n")]
  ++ copyEvents basemsg.data_area_f n

/-- Events of one complete call of `canfd_rx_callback` on a data frame out of
the FIFO whose length code `n` is at most `CAN_DLC`. -/
def rxEvents (basemsg : RxBuffer) (n : Nat) : List Event :=
  copyPhase basemsg n
  ++ [Event.printf "Rx Data : "]
  ++ loopEvents (loadByte basemsg.data_area_f) 0 n
  ++ [Event.printf "\r\n\r\n"]

/-- A stimulus the given fuel is enough for: a received frame has a length code
of at most 255, below the fuel. -/
def Stimulus.bounded (fuel : Nat) : Stimulus → Prop
  | Stimulus.rx _ _ basemsg => basemsg.r1_f.dlc ≤ 255 ∧ basemsg.r1_f.dlc < fuel
  | _ => True

/-- A stimulus whose copy stays inside the local array: a received frame has a
length code of at most `CAN_DLC`. -/
def Stimulus.fits : Stimulus → Prop
  | Stimulus.rx _ _ basemsg => basemsg.r1_f.dlc ≤ CAN_DLC
  | _ => True

/-- Events of `main` from its first statement through the call of `Cy_CANFD_Init`. -/
def startupEvents : List Event :=
  [Event.cybsp_init, Event.cy_retarget_io_init,
    Event.printf "\x1b[2J\x1b[;H",
    Event.printf (rule ++ "\r\n"),
    Event.printf "XMC7000 MCU: CANFD example\r\n",
    Event.printf (rule ++ "\r\n\n"),
    Event.printf (rule ++ "\r\n"),
    Event.printf "CAN FD Node-1\r\n",
    Event.printf (rule ++ "\r\n\n"),
    Event.Cy_SysInt_Init_canfd, Event.Cy_SysInt_Init_button, Event.NVIC_EnableIRQ,
    Event.enable_irq, Event.Cy_CANFD_Init 1]

/-- The transmit request built from the descriptor as state `s` holds it. -/
def transmitOf (s : State) : Event :=
  Event.Cy_CANFD_UpdateAndTransmitMsgBuffer CAN_HW_CHANNEL CAN_BUFFER_INDEX
    s.CANFD_T0RegisterBuffer_0_id s.CANFD_txBuffer_0_data_area_f
    (s.deref s.CANFD_txBuffer_0_data_area_f)

/-! ## Concrete inputs -/

/-- A data frame whose data area holds the payload words of `canfd_dataBuffer`. -/
def payloadFrame (n id : Nat) : RxBuffer :=
  ⟨⟨id, CY_CANFD_RTR_DATA_FRAME⟩, ⟨n⟩, fun k => canfd_dataBuffer_init.getD k 0⟩

/-- A remote frame (`rtr` is 1). -/
def remoteFrame : RxBuffer :=
  ⟨⟨5, 1⟩, ⟨8⟩, fun k => canfd_dataBuffer_init.getD k 0⟩

/-- A state at reset: generated identifier 34, generated data words zero, LED low. -/
def bootState : State := boot 34 [0, 0] false

/-- Start-up results with all three checked calls successful. -/
def okEnv : Env := ⟨0, 0, 0⟩

/-- One button press followed by one loop iteration. -/
def pressedSchedule : List Stimulus := [Stimulus.button 1, Stimulus.poll 0]

/-! ## Lemmas on the copy and the print loop -/

theorem memcpy_state (src : Nat → Nat) (n : Nat) (c : Copy) :
    (memcpy src n c).state = { c.state with trace := c.state.trace ++ copyEvents src n } := by
  induction n with
  | zero => simp [memcpy, copyEvents]
  | succ k ih => simp [memcpy, copyEvents, ih, State.emit, List.append_assoc]

theorem memcpy_length (src : Nat → Nat) (n : Nat) (c : Copy) :
    (memcpy src n c).dst.length = c.dst.length := by
  induction n with
  | zero => simp [memcpy]
  | succ k ih => simp [memcpy, ih]

theorem memcpy_inBounds (src : Nat → Nat) (n : Nat) (c : Copy) :
    (memcpy src n c).inBounds = (c.inBounds && decide (n ≤ c.dst.length)) := by
  induction n with
  | zero => simp [memcpy]
  | succ k ih =>
    simp only [memcpy, ih, memcpy_length]
    by_cases h : k + 1 ≤ c.dst.length
    · have h1 : k ≤ c.dst.length := by omega
      have h2 : k < c.dst.length := by omega
      simp [h, h1, h2]
    · have h2 : ¬ k < c.dst.length := by omega
      simp [h, h2]

theorem memcpy_dst (src : Nat → Nat) (n : Nat) (c : Copy) (hn : n ≤ c.dst.length) :
    ∀ i, i < n → (memcpy src n c).dst[i]? = some (loadByte src i) := by
  induction n with
  | zero => intro i hi; omega
  | succ k ih =>
    intro i hi
    simp only [memcpy]
    rw [List.getElem?_set]
    by_cases h : k = i
    · subst h
      have : k < (memcpy src k c).dst.length := by rw [memcpy_length]; omega
      simp [this]
    · rw [if_neg h]
      exact ih (by omega) i (by omega)

theorem printLoop_eq (buf : List Nat) (byte : Nat → Nat) (d : Nat) (hd : d ≤ 255)
    (hbuf : ∀ i, i < d → buf[i]? = some (byte i)) :
    ∀ (fuel i : Nat) (s : State), i ≤ d → d - i < fuel →
      printLoop buf (d : Int) fuel i s
        = Result.done { s with trace := s.trace ++ loopEvents byte i (d - i) } := by
  intro fuel
  induction fuel with
  | zero => intro i s _ h; omega
  | succ f ih =>
    intro i s hi hf
    by_cases hlt : i < d
    · have hmod : (i + 1) % 256 = i + 1 := Nat.mod_eq_of_lt (by omega)
      have hcast : ((i : Nat) : Int) < (d : Int) := by exact_mod_cast hlt
      have hsub : d - i = (d - (i + 1)) + 1 := by omega
      rw [printLoop, if_pos hcast, hbuf i hlt]
      simp only
      rw [hmod, ih (i + 1) _ (by omega) (by omega), hsub]
      simp [loopEvents, printf, State.emit, List.append_assoc]
    · have hid : i = d := by omega
      have hcast : ¬ ((i : Nat) : Int) < (d : Int) := by
        intro h; exact hlt (by exact_mod_cast h)
      rw [printLoop, if_neg hcast]
      subst hid
      simp [loopEvents]

theorem toInt_of_lt (v : Nat) (h : v < 2 ^ 31) : toInt v = (v : Int) := by
  unfold toInt
  have h1 : v % 2 ^ 32 = v := Nat.mod_eq_of_lt (by omega)
  rw [h1, if_pos h]

theorem toSizeT_natCast (v : Nat) (h : v < 2 ^ 31) : toSizeT (v : Int) = v := by
  unfold toSizeT
  omega

/-- Result of the callback on a data frame out of the FIFO whose length code is
at most `CAN_DLC`, with fuel above the length code: the call runs to its end. -/
theorem canfd_rx_callback_eq (fuel num : Nat) (basemsg : RxBuffer) (s : State)
    (hrtr : basemsg.r0_f.rtr = CY_CANFD_RTR_DATA_FRAME) (hd : basemsg.r1_f.dlc ≤ CAN_DLC)
    (hfuel : basemsg.r1_f.dlc < fuel) :
    canfd_rx_callback fuel true num basemsg s
      = Result.done { s with ledLevel := !s.ledLevel,
                             trace := s.trace ++ rxEvents basemsg basemsg.r1_f.dlc } := by
  have h8 : basemsg.r1_f.dlc ≤ 8 := hd
  have hI : toInt basemsg.r1_f.dlc = (basemsg.r1_f.dlc : Int) := toInt_of_lt _ (by omega)
  have hS : toSizeT (basemsg.r1_f.dlc : Int) = basemsg.r1_f.dlc := toSizeT_natCast _ (by omega)
  have hlen : basemsg.r1_f.dlc ≤ (List.replicate CAN_DLC 0).length := by simpa using hd
  unfold canfd_rx_callback
  simp only [hrtr, beq_self_eq_true, if_true]
  rw [hI, hS, memcpy_inBounds]
  simp only [Bool.true_and, decide_eq_true_eq, hlen, if_true]
  rw [memcpy_state,
    printLoop_eq _ (loadByte basemsg.data_area_f) _ (by omega)
      (memcpy_dst basemsg.data_area_f _ _ hlen) fuel 0 _ (Nat.zero_le _) (by omega)]
  simp [rxEvents, copyPhase, printf, State.emit, Cy_GPIO_Inv, List.append_assoc, hI]

/-- Result of the callback on a data frame out of the FIFO whose length code
exceeds `CAN_DLC`: the copy writes outside the local array, whatever the
fuel. -/
theorem canfd_rx_callback_overrun (fuel num : Nat) (basemsg : RxBuffer) (s : State)
    (hrtr : basemsg.r0_f.rtr = CY_CANFD_RTR_DATA_FRAME) (hd : CAN_DLC < basemsg.r1_f.dlc)
    (hint : basemsg.r1_f.dlc < 2 ^ 31) :
    canfd_rx_callback fuel true num basemsg s
      = Result.outOfBounds { s with ledLevel := !s.ledLevel,
                                    trace := s.trace ++ copyPhase basemsg basemsg.r1_f.dlc } := by
  have hI : toInt basemsg.r1_f.dlc = (basemsg.r1_f.dlc : Int) := toInt_of_lt _ hint
  have hS : toSizeT (basemsg.r1_f.dlc : Int) = basemsg.r1_f.dlc := toSizeT_natCast _ hint
  have hlen : ¬ basemsg.r1_f.dlc ≤ (List.replicate CAN_DLC 0).length := by
    simp only [List.length_replicate]; omega
  unfold canfd_rx_callback
  simp only [hrtr, beq_self_eq_true, if_true]
  rw [hI, hS, memcpy_inBounds]
  simp only [Bool.true_and, decide_eq_true_eq, hlen, if_false]
  rw [memcpy_state]
  simp [copyPhase, printf, State.emit, Cy_GPIO_Inv, List.append_assoc, hI]

theorem printed_append (a b : List Event) : printed (a ++ b) = printed a ++ printed b := by
  simp [printed]

theorem ledInversions_append (a b : List Event) :
    ledInversions (a ++ b) = ledInversions a + ledInversions b := by
  simp [ledInversions]

theorem dataAreaReads_append (a b : List Event) :
    dataAreaReads (a ++ b) = dataAreaReads a ++ dataAreaReads b := by
  simp [dataAreaReads]

theorem bufferWrites_append (a b : List Event) :
    bufferWrites (a ++ b) = bufferWrites a ++ bufferWrites b := by
  simp [bufferWrites]

theorem bufferStores_append (a b : List Event) :
    bufferStores (a ++ b) = bufferStores a ++ bufferStores b := by
  simp [bufferStores]

theorem bufferReads_append (a b : List Event) :
    bufferReads (a ++ b) = bufferReads a ++ bufferReads b := by
  simp [bufferReads]

theorem copyEvents_proj (src : Nat → Nat) (n : Nat) :
    printed (copyEvents src n) = [] ∧ ledInversions (copyEvents src n) = 0 ∧
    dataAreaReads (copyEvents src n) = List.range n ∧
    bufferWrites (copyEvents src n) = List.range n ∧ bufferReads (copyEvents src n) = [] ∧
    bufferStores (copyEvents src n) = (List.range n).map (fun i => (i, loadByte src i)) := by
  induction n with
  | zero =>
    simp [copyEvents, printed, ledInversions, dataAreaReads, bufferWrites, bufferReads,
      bufferStores]
  | succ k ih =>
    obtain ⟨h1, h2, h3, h4, h5, h6⟩ := ih
    simp only [copyEvents, printed_append, ledInversions_append, dataAreaReads_append,
      bufferWrites_append, bufferReads_append, bufferStores_append, h1, h2, h3, h4, h5, h6,
      List.range_succ, List.map_append]
    simp [printed, ledInversions, dataAreaReads, bufferWrites, bufferReads, bufferStores]

theorem loopEvents_proj (buf : Nat → Nat) :
    ∀ (count start : Nat),
      printed (loopEvents buf start count)
        = (List.range' start count).map (fun i => " " ++ fmtD (buf i) ++ " ") ∧
      ledInversions (loopEvents buf start count) = 0 ∧
      dataAreaReads (loopEvents buf start count) = [] ∧
      bufferWrites (loopEvents buf start count) = [] ∧
      bufferReads (loopEvents buf start count) = List.range' start count ∧
      bufferStores (loopEvents buf start count) = [] := by
  intro count
  induction count with
  | zero =>
    intro start
    simp [loopEvents, printed, ledInversions, dataAreaReads, bufferWrites, bufferReads,
      bufferStores]
  | succ k ih =>
    intro start
    obtain ⟨h1, h2, h3, h4, h5, h6⟩ := ih (start + 1)
    simp only [printed, ledInversions, dataAreaReads, bufferWrites, bufferReads,
      bufferStores] at h1 h2 h3 h4 h5 h6 ⊢
    simp [loopEvents, List.filterMap_cons, List.filter_cons, h1, h2, h3, h4, h5, h6,
      List.range'_succ]

theorem loadByte_eq (mem : Nat → Nat) (i : Nat) :
    loadByte mem i = mem (i / 4) / 256 ^ (i % 4) % 256 := by
  unfold loadByte
  have h : (0xFF : Nat) = 2 ^ 8 - 1 := by norm_num
  rw [h, Nat.and_pow_two_sub_one_eq_mod, Nat.shiftRight_eq_div_pow, pow_mul]
  norm_num

theorem copyPhase_proj (basemsg : RxBuffer) (n : Nat) :
    printed (copyPhase basemsg n)
      = [fmtD (toInt basemsg.r1_f.dlc) ++ " bytes received from Node-"
          ++ fmtD (toInt basemsg.r0_f.id) ++ " with identifier "
          ++ fmtD (toInt basemsg.r0_f.id) ++ "\r\n\r\n"] ∧
    ledInversions (copyPhase basemsg n) = 1 ∧
    dataAreaReads (copyPhase basemsg n) = List.range n ∧
    bufferWrites (copyPhase basemsg n) = List.range n ∧
    bufferReads (copyPhase basemsg n) = [] ∧
    bufferStores (copyPhase basemsg n)
      = (List.range n).map (fun i => (i, loadByte basemsg.data_area_f i)) := by
  obtain ⟨c1, c2, c3, c4, c5, c6⟩ := copyEvents_proj basemsg.data_area_f n
  simp only [copyPhase, printed_append, ledInversions_append, dataAreaReads_append,
    bufferWrites_append, bufferReads_append, bufferStores_append, c1, c2, c3, c4, c5, c6]
  simp [printed, ledInversions, dataAreaReads, bufferWrites, bufferReads, bufferStores]

theorem rxEvents_proj (basemsg : RxBuffer) (n : Nat) :
    printed (rxEvents basemsg n)
      = (fmtD (toInt basemsg.r1_f.dlc) ++ " bytes received from Node-"
          ++ fmtD (toInt basemsg.r0_f.id) ++ " with identifier "
          ++ fmtD (toInt basemsg.r0_f.id) ++ "\r\n\r\n")
        :: "Rx Data : "
        :: ((List.range n).map
              (fun i => " " ++ toString (loadByte basemsg.data_area_f i) ++ " ")
            ++ ["\r\n\r\n"]) ∧
    ledInversions (rxEvents basemsg n) = 1 ∧
    dataAreaReads (rxEvents basemsg n) = List.range n ∧
    bufferWrites (rxEvents basemsg n) = List.range n ∧
    bufferReads (rxEvents basemsg n) = List.range n ∧
    bufferStores (rxEvents basemsg n)
      = (List.range n).map (fun i => (i, loadByte basemsg.data_area_f i)) := by
  obtain ⟨c1, c2, c3, c4, c5, c6⟩ := copyPhase_proj basemsg n
  obtain ⟨l1, l2, l3, l4, l5, l6⟩ := loopEvents_proj (loadByte basemsg.data_area_f) n 0
  have hmap : (List.range' 0 n).map
        (fun i => " " ++ fmtD ((loadByte basemsg.data_area_f i : Nat) : Int) ++ " ")
      = (List.range n).map (fun i => " " ++ toString (loadByte basemsg.data_area_f i) ++ " ") := by
    rw [List.range_eq_range']
    rfl
  simp only [rxEvents, printed_append, ledInversions_append, dataAreaReads_append,
    bufferWrites_append, bufferReads_append, bufferStores_append, c1, c2, c3, c4, c5, c6,
    l1, l2, l3, l4, l5, l6, hmap, List.range_eq_range']
  simp [printed, ledInversions, dataAreaReads, bufferWrites, bufferReads, bufferStores]

/-! ## Lemmas on the handlers, the loop and the schedule -/

theorem transmits_append (a b : List Event) : transmits (a ++ b) = transmits a ++ transmits b := by
  simp [transmits]

theorem pollIteration_eq (txStatus : Nat) (s : State) :
    pollIteration txStatus s =
      if s.ButtonIntrFlag = true then
        { s with ButtonIntrFlag := false,
                 trace := s.trace ++ [Event.storeButtonIntrFlag false, transmitOf s,
                   Event.printf "CANFD frame sent from Node-1\r\n\r\n"] }
      else s := by
  unfold pollIteration
  by_cases h : s.ButtonIntrFlag = true
  · simp only [h, beq_self_eq_true, if_true]
    have h1 : (USE_CAN_MODE == CAN_CLASSIC_MODE) = false := by decide
    have h2 : (USE_CAN_MODE == CAN_FD_MODE) = true := by decide
    have h3 : "CANFD frame sent from Node-" ++ fmtD USE_CAN_NODE ++ "\r\n\r\n"
        = "CANFD frame sent from Node-1\r\n\r\n" := by decide
    simp [h1, h2, h3, Cy_CANFD_UpdateAndTransmitMsgBuffer, printf, State.emit, transmitOf,
      State.deref, List.append_assoc]
  · simp [h]

theorem isr_button_eq (s : State) :
    isr_button s =
      if s.buttonIntrMasked ≠ 0 then
        { s with ButtonIntrFlag := true, buttonIntrMasked := 0,
                 trace := s.trace ++ [Event.storeButtonIntrFlag true,
                   Event.Cy_GPIO_ClearInterrupt] }
      else s := by
  unfold isr_button Cy_GPIO_GetInterruptStatusMasked Cy_GPIO_ClearInterrupt
  by_cases h : s.buttonIntrMasked = 0
  · simp [h]
  · simp [h, List.append_assoc]

theorem step_total (fuel : Nat) (e : Stimulus) (s : State) (h : e.bounded fuel)
    (hfit : e.fits) : ∃ s1, step fuel e s = Result.done s1 := by
  cases e with
  | poll txStatus => exact ⟨_, rfl⟩
  | button intStatus => exact ⟨_, rfl⟩
  | rx rxFIFOMsg num basemsg =>
    simp only [step]
    cases rxFIFOMsg with
    | false => exact ⟨s, by simp [canfd_rx_callback]⟩
    | true =>
      by_cases hr : basemsg.r0_f.rtr = CY_CANFD_RTR_DATA_FRAME
      · exact ⟨_, canfd_rx_callback_eq fuel num basemsg s hr hfit h.2⟩
      · refine ⟨s, ?_⟩
        have hb : (CY_CANFD_RTR_DATA_FRAME == basemsg.r0_f.rtr) = false := by
          simpa [beq_eq_false_iff_ne] using fun h => hr h.symm
        simp [canfd_rx_callback, hb]

theorem run_total (fuel : Nat) :
    ∀ (schedule : List Stimulus) (s : State),
      (∀ e ∈ schedule, e.bounded fuel) → (∀ e ∈ schedule, e.fits) →
      ∃ s1, run fuel schedule s = Result.done s1 := by
  intro schedule
  induction schedule with
  | nil => intro s _ _; exact ⟨s, rfl⟩
  | cons e rest ih =>
    intro s h hfit
    obtain ⟨s2, h2⟩ :=
      step_total fuel e s (h e (List.mem_cons_self _ _)) (hfit e (List.mem_cons_self _ _))
    obtain ⟨s3, h3⟩ := ih s2 (fun x hx => h x (List.mem_cons_of_mem _ hx))
      (fun x hx => hfit x (List.mem_cons_of_mem _ hx))
    exact ⟨s3, by rw [run, h2]; exact h3⟩

theorem main_startup_eq (env : Env) (s0 : State) :
    main_startup env s0 =
      if env.cybsp_init ≠ CY_RSLT_SUCCESS then
        Outcome.halted { s0 with trace := s0.trace ++ startupEvents.take 1 }
      else if env.cy_retarget_io_init ≠ CY_RSLT_SUCCESS then
        Outcome.halted { s0 with trace := s0.trace ++ startupEvents.take 2 }
      else if env.Cy_CANFD_Init ≠ CY_CANFD_SUCCESS then
        Outcome.halted { s0 with trace := s0.trace ++ startupEvents }
      else
        Outcome.running { s0 with CANFD_T0RegisterBuffer_0_id := USE_CAN_NODE,
                                  CANFD_txBuffer_0_data_area_f := DataArea.canfd_dataBuffer,
                                  trace := s0.trace ++ startupEvents } := by
  have h1 : (USE_CAN_MODE == CAN_CLASSIC_MODE) = false := by decide
  have h2 : (USE_CAN_MODE == CAN_FD_MODE) = true := by decide
  have h3 : "CAN FD Node-" ++ fmtD USE_CAN_NODE ++ "\r\n" = "CAN FD Node-1\r\n" := by decide
  have h4 : CAN_HW_CHANNEL = 1 := rfl
  unfold main_startup
  by_cases c1 : env.cybsp_init = CY_RSLT_SUCCESS
  · by_cases c2 : env.cy_retarget_io_init = CY_RSLT_SUCCESS
    · by_cases c3 : env.Cy_CANFD_Init = CY_CANFD_SUCCESS
      · simp [c1, c2, c3, h1, h2, h3, h4, CY_ASSERT, printf, State.emit, startupEvents,
          List.append_assoc]
      · simp [c1, c2, c3, h1, h2, h3, h4, CY_ASSERT, printf, State.emit, startupEvents,
          List.append_assoc]
    · simp [c1, c2, CY_ASSERT, State.emit, startupEvents, List.append_assoc]
  · simp [c1, CY_ASSERT, State.emit, startupEvents]

theorem startupEvents_transmits : transmits startupEvents = [] := by decide

/-! ## The claims -/

/-- Claim C1. `canfd_rx_callback` on a data frame delivered through the receive
FIFO, data-length code `n` at most 8, any identifier and any buffer number,
with fuel above `n`: the call returns, and the state differs only in the LED
level, which is inverted, and in the trace. The new events hold exactly one
`Cy_GPIO_Inv`. The texts printed are a header, `"Rx Data : "`, then exactly `n`
values, the `i`-th being byte `i % 4` (least significant first) of the data word
at index `i / 4`, then the line end. The bytes of the data area read are those
at offsets `0 .. n-1`, and so are the offsets of the local buffer read by the
print loop. For `n = 0` the LED is inverted all the same, no value is printed
and no byte of the data area is read. -/
theorem canfd_rx_callback_data_frame (fuel num : Nat) (basemsg : RxBuffer) (s : State)
    (hfifo_data : basemsg.r0_f.rtr = CY_CANFD_RTR_DATA_FRAME)
    (hn : basemsg.r1_f.dlc ≤ 8) (hfuel : basemsg.r1_f.dlc < fuel) :
    ∃ ev : List Event,
      canfd_rx_callback fuel true num basemsg s
        = Result.done { s with ledLevel := !s.ledLevel, trace := s.trace ++ ev } ∧
      ledInversions ev = 1 ∧
      (∃ header : String,
        printed ev = header :: "Rx Data : " ::
          ((List.range basemsg.r1_f.dlc).map
              (fun i => " " ++ toString (basemsg.data_area_f (i / 4) / 256 ^ (i % 4) % 256) ++ " ")
            ++ ["\r\n\r\n"])) ∧
      dataAreaReads ev = List.range basemsg.r1_f.dlc ∧
      bufferReads ev = List.range basemsg.r1_f.dlc ∧
      (basemsg.r1_f.dlc = 0 →
        (∃ header : String, printed ev = [header, "Rx Data : ", "\r\n\r\n"]) ∧
        dataAreaReads ev = []) := by
  obtain ⟨p1, p2, p3, p4, p5, _⟩ := rxEvents_proj basemsg basemsg.r1_f.dlc
  refine ⟨rxEvents basemsg basemsg.r1_f.dlc,
    canfd_rx_callback_eq fuel num basemsg s hfifo_data hn hfuel, p2,
    ⟨fmtD (toInt basemsg.r1_f.dlc) ++ " bytes received from Node-"
      ++ fmtD (toInt basemsg.r0_f.id) ++ " with identifier " ++ fmtD (toInt basemsg.r0_f.id)
      ++ "\r\n\r\n", ?_⟩, p3, p5, ?_⟩
  · rw [p1]
    simp only [loadByte_eq]
  · intro h0
    rw [p1, p3, h0]
    exact ⟨⟨_, rfl⟩, rfl⟩

theorem canfd_rx_callback_data_frame_witness :
    (payloadFrame 3 5).r0_f.rtr = CY_CANFD_RTR_DATA_FRAME ∧ (payloadFrame 3 5).r1_f.dlc ≤ 8 ∧
    (payloadFrame 3 5).r1_f.dlc < 4 ∧
    ∃ ev : List Event,
      canfd_rx_callback 4 true 0 (payloadFrame 3 5) bootState
        = Result.done
            { bootState with ledLevel := !bootState.ledLevel, trace := bootState.trace ++ ev } ∧
      ledInversions ev = 1 ∧
      (∃ header : String,
        printed ev = header :: "Rx Data : " ::
          ((List.range (payloadFrame 3 5).r1_f.dlc).map
              (fun i => " " ++ toString ((payloadFrame 3 5).data_area_f (i / 4) / 256 ^ (i % 4) % 256) ++ " ")
            ++ ["\r\n\r\n"])) ∧
      dataAreaReads ev = List.range (payloadFrame 3 5).r1_f.dlc ∧
      bufferReads ev = List.range (payloadFrame 3 5).r1_f.dlc ∧
      ((payloadFrame 3 5).r1_f.dlc = 0 →
        (∃ header : String, printed ev = [header, "Rx Data : ", "\r\n\r\n"]) ∧
        dataAreaReads ev = []) :=
  ⟨rfl, by decide, by decide,
    canfd_rx_callback_data_frame 4 0 (payloadFrame 3 5) bootState rfl (by decide) (by decide)⟩

/-- Claim C2. `canfd_rx_callback` on a frame that is not a data frame (`rtr`
differs from `CY_CANFD_RTR_DATA_FRAME`), whatever the FIFO flag, the buffer
number, the identifier, the data-length code, the data words and the fuel: the
call returns the state it was given, so the LED level, the number of LED
inversions and the texts printed are those from before the call. -/
theorem canfd_rx_callback_remote_frame (fuel : Nat) (rxFIFOMsg : Bool) (num : Nat)
    (basemsg : RxBuffer) (s : State) (hrtr : basemsg.r0_f.rtr ≠ CY_CANFD_RTR_DATA_FRAME) :
    ∃ s1 : State, canfd_rx_callback fuel rxFIFOMsg num basemsg s = Result.done s1 ∧ s1 = s ∧
      s1.ledLevel = s.ledLevel ∧ ledInversions s1.trace = ledInversions s.trace ∧
      printed s1.trace = printed s.trace := by
  refine ⟨s, ?_, rfl, rfl, rfl, rfl⟩
  unfold canfd_rx_callback
  have h : (CY_CANFD_RTR_DATA_FRAME == basemsg.r0_f.rtr) = false := by
    simpa [beq_eq_false_iff_ne] using fun h => hrtr h.symm
  simp [h]

theorem canfd_rx_callback_remote_frame_witness :
    remoteFrame.r0_f.rtr ≠ CY_CANFD_RTR_DATA_FRAME ∧
    ∃ s1 : State, canfd_rx_callback 0 true 0 remoteFrame bootState = Result.done s1 ∧
      s1 = bootState ∧
      s1.ledLevel = bootState.ledLevel ∧ ledInversions s1.trace = ledInversions bootState.trace ∧
      printed s1.trace = printed bootState.trace :=
  ⟨by decide, canfd_rx_callback_remote_frame 0 true 0 remoteFrame bootState (by decide)⟩

/-- Claim C10. `canfd_rx_callback` with `rxFIFOMsg` false returns the state it
was given, data frame or not: no LED inversion, nothing printed. Its result is
the same for any two frames, so no field of the frame is read. With `rxFIFOMsg`
true the result does not depend on `msgBufOrRxFIFONum`. -/
theorem canfd_rx_callback_not_fifo (fuel : Nat) (basemsg : RxBuffer) (s : State) :
    (∀ (num : Nat), canfd_rx_callback fuel false num basemsg s = Result.done s) ∧
    (∀ (num num2 : Nat) (other : RxBuffer),
      canfd_rx_callback fuel false num basemsg s = canfd_rx_callback fuel false num2 other s) ∧
    (∀ (num num2 : Nat),
      canfd_rx_callback fuel true num basemsg s = canfd_rx_callback fuel true num2 basemsg s) :=
  ⟨fun _ => by simp [canfd_rx_callback], fun _ _ _ => by simp [canfd_rx_callback],
    fun _ _ => by unfold canfd_rx_callback; rfl⟩

/-- Claim C9. `canfd_rx_callback` on a data frame out of the FIFO with
data-length code `dlc` (a code is at most 15). The copy stores exactly `dlc`
bytes in the local array, at the offsets `0 .. dlc-1` in order, the byte stored
at offset `i` being byte `i % 4` (least significant first) of the data word at
index `i / 4`; nothing clamps the count to the `CAN_DLC = 8` bytes of the
array. All offsets written by the copy and read by the print loop are below
`CAN_DLC` if and only if `dlc ≤ 8`. For `dlc ≤ 8` and fuel above `dlc` the call
runs to its end, the print loop reads the offsets `0 .. dlc-1`, and the values
printed are the bytes the copy stored. For `dlc` from 9 to 15, whatever the
fuel, the copy writes every offset `8 .. dlc-1`, which lies outside the array:
the model stops at the copy with `Result.outOfBounds` and states nothing about
what the program does afterwards. -/
theorem canfd_rx_callback_copy_bounds (fuel num : Nat) (basemsg : RxBuffer) (s : State)
    (hdata : basemsg.r0_f.rtr = CY_CANFD_RTR_DATA_FRAME) (hdlc : basemsg.r1_f.dlc ≤ 15) :
    ∃ ev : List Event,
      bufferStores ev
        = (List.range basemsg.r1_f.dlc).map
            (fun i => (i, basemsg.data_area_f (i / 4) / 256 ^ (i % 4) % 256)) ∧
      bufferWrites ev = List.range basemsg.r1_f.dlc ∧
      ((∀ i ∈ bufferWrites ev ++ bufferReads ev, i < CAN_DLC) ↔ basemsg.r1_f.dlc ≤ 8) ∧
      (basemsg.r1_f.dlc ≤ 8 → basemsg.r1_f.dlc < fuel →
        canfd_rx_callback fuel true num basemsg s
          = Result.done { s with ledLevel := !s.ledLevel, trace := s.trace ++ ev } ∧
        bufferReads ev = List.range basemsg.r1_f.dlc ∧
        ∃ header : String,
          printed ev = header :: "Rx Data : " ::
            ((bufferStores ev).map (fun store => " " ++ toString store.2 ++ " ")
              ++ ["\r\n\r\n"])) ∧
      (9 ≤ basemsg.r1_f.dlc →
        canfd_rx_callback fuel true num basemsg s
          = Result.outOfBounds { s with ledLevel := !s.ledLevel, trace := s.trace ++ ev } ∧
        ∀ j, 8 ≤ j → j < basemsg.r1_f.dlc → j ∈ bufferWrites ev ∧ ¬ j < CAN_DLC) := by
  by_cases h8 : basemsg.r1_f.dlc ≤ 8
  · obtain ⟨p1, _, _, p4, p5, p6⟩ := rxEvents_proj basemsg basemsg.r1_f.dlc
    refine ⟨rxEvents basemsg basemsg.r1_f.dlc, ?_, p4, ?_, ?_, ?_⟩
    · rw [p6]; simp only [loadByte_eq]
    · rw [p4, p5]
      refine ⟨fun _ => h8, fun _ i hi => ?_⟩
      simp at hi
      simp only [CAN_DLC]
      omega
    · intro _ hfuel
      refine ⟨canfd_rx_callback_eq fuel num basemsg s hdata h8 hfuel, p5,
        fmtD (toInt basemsg.r1_f.dlc) ++ " bytes received from Node-"
          ++ fmtD (toInt basemsg.r0_f.id) ++ " with identifier "
          ++ fmtD (toInt basemsg.r0_f.id) ++ "\r\n\r\n", ?_⟩
      rw [p1, p6, List.map_map]
      rfl
    · intro h9
      omega
  · obtain ⟨_, _, _, p4, p5, p6⟩ := copyPhase_proj basemsg basemsg.r1_f.dlc
    refine ⟨copyPhase basemsg basemsg.r1_f.dlc, ?_, p4, ?_, ?_, ?_⟩
    · rw [p6]; simp only [loadByte_eq]
    · rw [p4, p5]
      refine ⟨fun h => ?_, fun h => absurd h h8⟩
      have hlt := h 8 (by simp; omega)
      simp [CAN_DLC] at hlt
    · intro h
      exact absurd h h8
    · intro _
      refine ⟨canfd_rx_callback_overrun fuel num basemsg s hdata
        (by simp only [CAN_DLC]; omega) (by omega), fun j hj1 hj2 => ?_⟩
      rw [p4]
      exact ⟨List.mem_range.mpr hj2, by simp only [CAN_DLC]; omega⟩

theorem canfd_rx_callback_copy_bounds_witness :
    ((payloadFrame 12 1).r0_f.rtr = CY_CANFD_RTR_DATA_FRAME ∧
      (payloadFrame 12 1).r1_f.dlc ≤ 15 ∧ 9 ≤ (payloadFrame 12 1).r1_f.dlc ∧
      ∃ ev : List Event,
        bufferStores ev = [(0, 1), (1, 2), (2, 3), (3, 4), (4, 5), (5, 6), (6, 7), (7, 8),
          (8, 0), (9, 0), (10, 0), (11, 0)] ∧
        canfd_rx_callback 0 true 0 (payloadFrame 12 1) bootState
          = Result.outOfBounds
              { bootState with ledLevel := !bootState.ledLevel,
                               trace := bootState.trace ++ ev } ∧
        ∀ j, 8 ≤ j → j < 12 → j ∈ bufferWrites ev ∧ ¬ j < CAN_DLC) ∧
    ((payloadFrame 5 1).r0_f.rtr = CY_CANFD_RTR_DATA_FRAME ∧
      (payloadFrame 5 1).r1_f.dlc ≤ 15 ∧ (payloadFrame 5 1).r1_f.dlc ≤ 8 ∧
      (payloadFrame 5 1).r1_f.dlc < 6 ∧
      ∃ ev : List Event,
        bufferStores ev = [(0, 1), (1, 2), (2, 3), (3, 4), (4, 5)] ∧
        canfd_rx_callback 6 true 0 (payloadFrame 5 1) bootState
          = Result.done
              { bootState with ledLevel := !bootState.ledLevel,
                               trace := bootState.trace ++ ev } ∧
        ∃ header : String,
          printed ev = header :: "Rx Data : " ::
            ((bufferStores ev).map (fun store => " " ++ toString store.2 ++ " ")
              ++ ["\r\n\r\n"])) := by
  refine ⟨⟨rfl, by decide, by decide, ?_⟩, ⟨rfl, by decide, by decide, by decide, ?_⟩⟩
  · obtain ⟨ev, h1, _, _, _, h5⟩ :=
      canfd_rx_callback_copy_bounds 0 0 (payloadFrame 12 1) bootState rfl (by decide)
    exact ⟨ev, by rw [h1]; decide, (h5 (by decide)).1, (h5 (by decide)).2⟩
  · obtain ⟨ev, h1, _, _, h4, _⟩ :=
      canfd_rx_callback_copy_bounds 6 0 (payloadFrame 5 1) bootState rfl (by decide)
    exact ⟨ev, by rw [h1]; decide, (h4 (by decide) (by decide)).1,
      (h4 (by decide) (by decide)).2.2⟩

/-- Claim C5. First part: for a data frame out of the FIFO with data-length code
`n` and identifier `id`, the first text `canfd_rx_callback` prints is
`"<n> bytes received from Node-<id> with identifier <id>"` followed by
`"\r\n\r\n"`, with `n` and `id` in decimal and the identifier in both places.
The bounds `n ≤ 255` and `id < 2 ^ 31` hold for every CAN frame (a data-length
code is at most 15, an identifier has at most 29 bits); they keep the `int`
conversions exact and the `uint8_t` loop counter below its wrap. For `n` up to
`CAN_DLC` the call runs to its end; for a larger `n` the header is printed
before the copy leaves the local array, where the model stops. Second part: for
the frame holding the payload words `0x04030201`, `0x08070605` with `n = 8` and
`id = 1` the call runs to its end and the texts printed are the header with 8
and 1, `"Rx Data : "`, the values 1 to 8 in that order, and the line end. -/
theorem canfd_rx_callback_log_line :
    (∀ (fuel num : Nat) (basemsg : RxBuffer) (s : State),
      basemsg.r0_f.rtr = CY_CANFD_RTR_DATA_FRAME → basemsg.r1_f.dlc ≤ 255 →
      basemsg.r0_f.id < 2 ^ 31 → basemsg.r1_f.dlc < fuel →
      ∃ ev : List Event,
        (basemsg.r1_f.dlc ≤ CAN_DLC →
          canfd_rx_callback fuel true num basemsg s
            = Result.done { s with ledLevel := !s.ledLevel, trace := s.trace ++ ev }) ∧
        (CAN_DLC < basemsg.r1_f.dlc →
          canfd_rx_callback fuel true num basemsg s
            = Result.outOfBounds { s with ledLevel := !s.ledLevel, trace := s.trace ++ ev }) ∧
        (printed ev).head? = some (toString basemsg.r1_f.dlc ++ " bytes received from Node-"
          ++ toString basemsg.r0_f.id ++ " with identifier " ++ toString basemsg.r0_f.id
          ++ "\r\n\r\n")) ∧
    (∀ (fuel num : Nat) (s : State), 8 < fuel →
      ∃ ev : List Event,
        canfd_rx_callback fuel true num (payloadFrame 8 1) s
          = Result.done { s with ledLevel := !s.ledLevel, trace := s.trace ++ ev } ∧
        printed ev = ["8 bytes received from Node-1 with identifier 1\r\n\r\n", "Rx Data : ",
          " 1 ", " 2 ", " 3 ", " 4 ", " 5 ", " 6 ", " 7 ", " 8 ", "\r\n\r\n"]) := by
  constructor
  · intro fuel num basemsg s hrtr hd hid hfuel
    by_cases h8 : basemsg.r1_f.dlc ≤ CAN_DLC
    · obtain ⟨p1, _⟩ := rxEvents_proj basemsg basemsg.r1_f.dlc
      refine ⟨rxEvents basemsg basemsg.r1_f.dlc,
        fun _ => canfd_rx_callback_eq fuel num basemsg s hrtr h8 hfuel,
        fun h => absurd h8 (by omega), ?_⟩
      rw [p1, toInt_of_lt _ hid, toInt_of_lt _ (by omega)]
      rfl
    · obtain ⟨p1, _⟩ := copyPhase_proj basemsg basemsg.r1_f.dlc
      refine ⟨copyPhase basemsg basemsg.r1_f.dlc, fun h => absurd h h8,
        fun h => canfd_rx_callback_overrun fuel num basemsg s hrtr h (by omega), ?_⟩
      rw [p1, toInt_of_lt _ hid, toInt_of_lt _ (by omega)]
      rfl
  · intro fuel num s hfuel
    exact ⟨_, canfd_rx_callback_eq fuel num (payloadFrame 8 1) s rfl (by decide) hfuel, by decide⟩

theorem canfd_rx_callback_log_line_witness :
    (payloadFrame 3 536870911).r0_f.rtr = CY_CANFD_RTR_DATA_FRAME ∧
    (payloadFrame 3 536870911).r1_f.dlc ≤ 255 ∧
    (payloadFrame 3 536870911).r0_f.id < 2 ^ 31 ∧ (payloadFrame 3 536870911).r1_f.dlc < 4 ∧
    (payloadFrame 3 536870911).r1_f.dlc ≤ CAN_DLC ∧
    ∃ ev : List Event,
      canfd_rx_callback 4 true 0 (payloadFrame 3 536870911) bootState
        = Result.done { bootState with ledLevel := !bootState.ledLevel,
                                       trace := bootState.trace ++ ev } ∧
      (printed ev).head? = some (toString (payloadFrame 3 536870911).r1_f.dlc
        ++ " bytes received from Node-" ++ toString (payloadFrame 3 536870911).r0_f.id
        ++ " with identifier " ++ toString (payloadFrame 3 536870911).r0_f.id ++ "\r\n\r\n") := by
  obtain ⟨ev, h1, _, h3⟩ :=
    canfd_rx_callback_log_line.1 4 0 (payloadFrame 3 536870911) bootState rfl (by decide)
      (by decide) (by decide)
  exact ⟨rfl, by decide, by decide, by decide, by decide, ev, h1 (by decide), h3⟩

/-- Claim C3. One iteration of the poll loop of `main`. If `ButtonIntrFlag` is
true at the check, the iteration stores false to the flag, then calls
`Cy_CANFD_UpdateAndTransmitMsgBuffer` once, on channel 1 and buffer slot 0 with
the descriptor `CANFD_txBuffer_0` as the state holds it, then prints the "frame
sent" line; these three events, in this order, are all it adds to the trace, the
flag is false afterwards, and the number of transmit requests grows by one. If
the flag is false at the check, the iteration leaves the state as it is: no
transmit request, nothing printed. -/
theorem pollIteration_transmits_once (txStatus : Nat) (s : State) :
    (s.ButtonIntrFlag = true →
      pollIteration txStatus s
        = { s with ButtonIntrFlag := false,
                   trace := s.trace ++ [Event.storeButtonIntrFlag false,
                     Event.Cy_CANFD_UpdateAndTransmitMsgBuffer 1 0 s.CANFD_T0RegisterBuffer_0_id
                       s.CANFD_txBuffer_0_data_area_f (s.deref s.CANFD_txBuffer_0_data_area_f),
                     Event.printf "CANFD frame sent from Node-1\r\n\r\n"] } ∧
      (transmits (pollIteration txStatus s).trace).length = (transmits s.trace).length + 1) ∧
    (s.ButtonIntrFlag = false → pollIteration txStatus s = s) := by
  rw [pollIteration_eq]
  constructor
  · intro h
    rw [if_pos h]
    refine ⟨rfl, ?_⟩
    simp [transmits_append, transmits, transmitOf]
  · intro h
    simp [h]

theorem pollIteration_transmits_once_witness :
    (bootState.ButtonIntrFlag = false ∧ pollIteration 0 bootState = bootState) ∧
    ((isr_button { bootState with buttonIntrMasked := 1 }).ButtonIntrFlag = true ∧
      (transmits (pollIteration 0 (isr_button { bootState with buttonIntrMasked := 1 })).trace).length
        = (transmits (isr_button { bootState with buttonIntrMasked := 1 }).trace).length + 1) :=
  ⟨⟨rfl, (pollIteration_transmits_once 0 bootState).2 rfl⟩,
    ⟨rfl, ((pollIteration_transmits_once 0
      (isr_button { bootState with buttonIntrMasked := 1 })).1 rfl).2⟩⟩

/-- Claim C4. `isr_button` with a non-zero masked interrupt status of the
button pin stores true to `ButtonIntrFlag` and calls `Cy_GPIO_ClearInterrupt`
once: the flag is true afterwards whatever it was, the status is cleared, and
the number of clear calls grows by one. With a zero masked status it returns the
state it was given. Hence after any non-empty sequence of button interrupts with
non-zero status, and no loop iteration in between, the flag is true. -/
theorem isr_button_sets_flag (s : State) :
    (s.buttonIntrMasked ≠ 0 →
      isr_button s
        = { s with ButtonIntrFlag := true, buttonIntrMasked := 0,
                   trace := s.trace ++ [Event.storeButtonIntrFlag true,
                     Event.Cy_GPIO_ClearInterrupt] } ∧
      (isr_button s).ButtonIntrFlag = true ∧
      interruptClears (isr_button s).trace = interruptClears s.trace + 1) ∧
    (s.buttonIntrMasked = 0 → isr_button s = s) ∧
    (∀ (fuel : Nat) (edges : List Nat), edges ≠ [] → (∀ e ∈ edges, e ≠ 0) →
      ∃ s1 : State, run fuel (edges.map Stimulus.button) s = Result.done s1 ∧
        s1.ButtonIntrFlag = true) := by
  refine ⟨?_, ?_, ?_⟩
  · intro h
    rw [isr_button_eq, if_pos h]
    refine ⟨rfl, rfl, ?_⟩
    simp [interruptClears]
  · intro h
    rw [isr_button_eq]
    simp [h]
  · intro fuel edges
    induction edges using List.reverseRecOn with
    | nil => intro h; exact absurd rfl h
    | append_singleton front e ih =>
      intro _ hall
      have he : e ≠ 0 := hall e (by simp)
      have hrun : ∀ (l : List Stimulus) (a b : State), run fuel l a = Result.done b →
          run fuel (l ++ [Stimulus.button e]) a
            = Result.done (isr_button { b with buttonIntrMasked := e }) := by
        intro l
        induction l with
        | nil => intro a b h; simp only [run, Result.done.injEq] at h; subst h; rfl
        | cons x xs ihx =>
          intro a b h
          rw [List.cons_append, run]
          rw [run] at h
          cases hx : step fuel x a with
          | outOfFuel => rw [hx] at h; simp at h
          | outOfBounds a2 => rw [hx] at h; simp at h
          | done a2 =>
            rw [hx] at h
            exact ihx a2 b h
      obtain ⟨m, hm⟩ := run_total fuel (front.map Stimulus.button) s
        (by
          intro x hx
          obtain ⟨_, _, rfl⟩ := List.mem_map.mp hx
          exact trivial)
        (by
          intro x hx
          obtain ⟨_, _, rfl⟩ := List.mem_map.mp hx
          exact trivial)
      refine ⟨_, by rw [List.map_append]; exact hrun _ _ _ hm, ?_⟩
      rw [isr_button_eq, if_pos he]

theorem isr_button_sets_flag_witness :
    ({ bootState with buttonIntrMasked := 1 } : State).buttonIntrMasked ≠ 0 ∧
    (isr_button { bootState with buttonIntrMasked := 1 }).ButtonIntrFlag = true ∧
    (bootState.buttonIntrMasked = 0 ∧ isr_button bootState = bootState) ∧
    ∃ s1 : State, run 0 ([1, 1, 4].map Stimulus.button) bootState = Result.done s1 ∧
      s1.ButtonIntrFlag = true :=
  ⟨by decide,
    ((isr_button_sets_flag { bootState with buttonIntrMasked := 1 }).1 (by decide)).2.1,
    ⟨rfl, (isr_button_sets_flag bootState).2.1 rfl⟩,
    (isr_button_sets_flag bootState).2.2 0 [1, 1, 4] (by decide) (by decide)⟩

/-- Claim C7. Start-up of `main`. If `cybsp_init` fails, `main` halts having
called only `cybsp_init`. If it succeeds and `cy_retarget_io_init` fails, `main`
halts having called only these two. If both succeed and `Cy_CANFD_Init` fails,
`main` halts after the events up to that call, with the transmit descriptor not
yet set. If all three succeed, `main` reaches the poll loop with the descriptor
set. Whenever one of the three fails, the program halts in start-up for every
schedule: no loop iteration runs and the trace holds no transmit request beyond
those it held at entry. -/
theorem main_halts_on_failed_startup (env : Env) (s0 : State) :
    (env.cybsp_init ≠ CY_RSLT_SUCCESS →
      main_startup env s0
        = Outcome.halted { s0 with trace := s0.trace ++ [Event.cybsp_init] }) ∧
    (env.cybsp_init = CY_RSLT_SUCCESS → env.cy_retarget_io_init ≠ CY_RSLT_SUCCESS →
      main_startup env s0
        = Outcome.halted
            { s0 with trace := s0.trace ++ [Event.cybsp_init, Event.cy_retarget_io_init] }) ∧
    (env.cybsp_init = CY_RSLT_SUCCESS → env.cy_retarget_io_init = CY_RSLT_SUCCESS →
        env.Cy_CANFD_Init ≠ CY_CANFD_SUCCESS →
      main_startup env s0 = Outcome.halted { s0 with trace := s0.trace ++ startupEvents }) ∧
    (env.cybsp_init = CY_RSLT_SUCCESS → env.cy_retarget_io_init = CY_RSLT_SUCCESS →
        env.Cy_CANFD_Init = CY_CANFD_SUCCESS →
      main_startup env s0
        = Outcome.running { s0 with CANFD_T0RegisterBuffer_0_id := USE_CAN_NODE,
                                    CANFD_txBuffer_0_data_area_f := DataArea.canfd_dataBuffer,
                                    trace := s0.trace ++ startupEvents }) ∧
    (¬ (env.cybsp_init = CY_RSLT_SUCCESS ∧ env.cy_retarget_io_init = CY_RSLT_SUCCESS ∧
          env.Cy_CANFD_Init = CY_CANFD_SUCCESS) →
      ∀ (fuel : Nat) (schedule : List Stimulus),
        ∃ h : State, main_startup env s0 = Outcome.halted h ∧
          system env fuel schedule s0 = Result.done (Outcome.halted h) ∧
          transmits h.trace = transmits s0.trace) := by
  refine ⟨?_, ?_, ?_, ?_, ?_⟩
  · intro c1
    rw [main_startup_eq, if_pos c1]; rfl
  · intro c1 c2
    rw [main_startup_eq, if_neg (not_not.mpr c1), if_pos c2]; rfl
  · intro c1 c2 c3
    rw [main_startup_eq, if_neg (not_not.mpr c1), if_neg (not_not.mpr c2), if_pos c3]
  · intro c1 c2 c3
    rw [main_startup_eq, if_neg (not_not.mpr c1), if_neg (not_not.mpr c2),
      if_neg (not_not.mpr c3)]
  · intro hfail fuel schedule
    unfold system
    rw [main_startup_eq]
    by_cases c1 : env.cybsp_init = CY_RSLT_SUCCESS
    · by_cases c2 : env.cy_retarget_io_init = CY_RSLT_SUCCESS
      · have c3 : env.Cy_CANFD_Init ≠ CY_CANFD_SUCCESS := fun c3 => hfail ⟨c1, c2, c3⟩
        rw [if_neg (not_not.mpr c1), if_neg (not_not.mpr c2), if_pos c3]
        exact ⟨_, rfl, rfl, by simp [transmits_append, startupEvents_transmits]⟩
      · rw [if_neg (not_not.mpr c1), if_pos c2]
        exact ⟨_, rfl, rfl, by simp [transmits_append, startupEvents, transmits]⟩
    · rw [if_pos c1]
      exact ⟨_, rfl, rfl, by simp [transmits_append, startupEvents, transmits]⟩

theorem main_halts_on_failed_startup_witness :
    main_startup ⟨1, 0, 0⟩ bootState
      = Outcome.halted { bootState with trace := bootState.trace ++ [Event.cybsp_init] } ∧
    main_startup ⟨0, 1, 0⟩ bootState
      = Outcome.halted
          { bootState with trace := bootState.trace ++ [Event.cybsp_init, Event.cy_retarget_io_init] } ∧
    main_startup ⟨0, 0, 1⟩ bootState
      = Outcome.halted { bootState with trace := bootState.trace ++ startupEvents } ∧
    main_startup okEnv bootState
      = Outcome.running { bootState with CANFD_T0RegisterBuffer_0_id := USE_CAN_NODE,
                                         CANFD_txBuffer_0_data_area_f := DataArea.canfd_dataBuffer,
                                         trace := bootState.trace ++ startupEvents } ∧
    ∃ h : State, main_startup ⟨0, 0, 1⟩ bootState = Outcome.halted h ∧
      system ⟨0, 0, 1⟩ 0 pressedSchedule bootState = Result.done (Outcome.halted h) ∧
      transmits h.trace = transmits bootState.trace :=
  ⟨(main_halts_on_failed_startup ⟨1, 0, 0⟩ bootState).1 (by decide),
    (main_halts_on_failed_startup ⟨0, 1, 0⟩ bootState).2.1 rfl (by decide),
    (main_halts_on_failed_startup ⟨0, 0, 1⟩ bootState).2.2.1 rfl rfl (by decide),
    (main_halts_on_failed_startup okEnv bootState).2.2.2.1 rfl rfl rfl,
    (main_halts_on_failed_startup ⟨0, 0, 1⟩ bootState).2.2.2.2 (by decide) 0 pressedSchedule⟩

/-- Claim C8, evaluated on the code. A loop iteration does the same whatever
status the transmit call returns. With a failing status (1) on both transmit
calls, the schedule button, iteration, button, iteration ends with `main` still
running, two transmit requests issued and the "frame sent" line printed
twice. -/
theorem poll_loop_ignores_transmit_status :
    (∀ (txStatus : Nat) (s : State), pollIteration txStatus s = pollIteration CY_CANFD_SUCCESS s) ∧
    (∃ s : State,
      system okEnv 0 [Stimulus.button 1, Stimulus.poll 1, Stimulus.button 1, Stimulus.poll 1]
        bootState = Result.done (Outcome.running s) ∧
      (transmits s.trace).length = 2 ∧
      printed (s.trace.drop startupEvents.length)
        = ["CANFD frame sent from Node-1\r\n\r\n", "CANFD frame sent from Node-1\r\n\r\n"]) := by
  constructor
  · intro txStatus s
    rw [pollIteration_eq, pollIteration_eq]
  · exact ⟨_, rfl, by decide, by decide⟩

end CanfdExample
